import Mathlib

/-!
Shallow embedding of the realtime device-presence and command-dispatch
subsystem of the tvbox-stack backend.  The authoritative implementation is
the WebSocket section of src/backend/middleware/auth.js (the spec notes the
simplified duplicate in src/backend/server.js as superseded; where a claim
cites the duplicate, its structure is identical and is noted in comments).

Registries (`deviceConnections`, `adminConnections`) are JavaScript `Map`s,
modelled as association lists with Map semantics (`mapSet`, `mapGet`,
`mapDelete`, `mapHas`).  Timestamps (`new Date()`) are naturals counting
milliseconds.  Database (supabase) calls and outbound frames are modelled as
explicit effect lists returned by each handler.
-/

namespace TvboxStack

/-- Transport readyState constants of a WebSocket handle. -/
inductive WsState where
  | CONNECTING
  | OPEN
  | CLOSING
  | CLOSED
deriving DecidableEq, Repr

/-- A WebSocket handle.  `id` models JavaScript object identity (the close
handlers compare sockets with strict equality).  `failsOnWrite` is the
transport-level fact whether a write on this socket errors; the ws library
reports such an error asynchronously on the socket itself, never as a
synchronous exception from `send` when `readyState` is `OPEN`. -/
structure Ws where
  id : Nat
  readyState : WsState
  failsOnWrite : Bool
deriving DecidableEq, Repr

/-- A row of the `devices` table as read by `handleDeviceRegister`
(`supabase.from('devices').select('*')`); only the fields the realtime
subsystem uses are modelled. -/
structure Device where
  id : String
  name : String
  tenant_id : String
deriving DecidableEq, Repr

/-- The record stored in `deviceConnections` by `handleDeviceRegister`
(auth.js lines 178-183): `{ ws, deviceId, lastSeen: new Date(), device }`. -/
structure DeviceConnection where
  ws : Ws
  deviceId : String
  lastSeen : Nat
  device : Device
deriving DecidableEq, Repr

/-- The record stored in `adminConnections` by `handleAdminRegister`
(auth.js lines 227-231): `{ ws, userId, lastSeen: new Date() }`.
The spec's ObserverConnection additionally has a `tenantId` used for
broadcast scoping; the source never assigns such a field, so reading it
yields JavaScript `undefined`, modelled as an `Option` that
`handleAdminRegister` always leaves `none`. -/
structure AdminConnection where
  ws : Ws
  userId : String
  lastSeen : Nat
  tenantId : Option String
deriving DecidableEq, Repr

/-- A JavaScript `Map` with string keys, as an insertion-ordered
association list. -/
abbrev JsMap (α : Type) := List (String × α)

/-- `m.get(k)` — first entry with the key, if any. -/
def mapGet {α : Type} (m : JsMap α) (k : String) : Option α :=
  (m.find? (fun p => p.1 == k)).map (fun p => p.2)

/-- `m.has(k)`. -/
def mapHas {α : Type} (m : JsMap α) (k : String) : Bool :=
  (m.find? (fun p => p.1 == k)).isSome

/-- `m.set(k, v)` — updates the existing entry in place (keeping insertion
order) or appends a new one. -/
def mapSet {α : Type} (m : JsMap α) (k : String) (v : α) : JsMap α :=
  if mapHas m k then m.map (fun p => if p.1 == k then (k, v) else p)
  else m ++ [(k, v)]

/-- `m.delete(k)`. -/
def mapDelete {α : Type} (m : JsMap α) (k : String) : JsMap α :=
  m.filter (fun p => p.1 != k)

/-- Well-formedness a JavaScript `Map` enjoys by construction: keys are
pairwise distinct. -/
def NodupKeys {α : Type} (m : JsMap α) : Prop :=
  (m.map (fun p => p.1)).Nodup

/-- Number of entries under a key. -/
def countKey {α : Type} (m : JsMap α) (k : String) : Nat :=
  (m.filter (fun p => p.1 == k)).length

/-- A supabase (backing-store) call issued by a handler, in issue order.
Only the calls the realtime subsystem makes are modelled. -/
inductive DbEffect where
  | updateDeviceOnline (deviceId : String) (last_seen : Nat)
  | updateDeviceStatusOffline (deviceId : String)
  | updateDeviceLastSeen (deviceId : String) (last_seen : Nat)
  | insertDeviceLog (device_id event_type message : String)
  | insertPlaybackLog (device_id content_id campaign_id : String)
      (duration : Nat)
  | upsertDeviceStats (device_id : String)
  | insertScreenshot (device_id : String)
deriving DecidableEq, Repr

/-- A frame sent back on the connection that produced the inbound message. -/
inductive ServerFrame where
  | CONNECTED
  | REGISTERED (id : String)
  | ERROR (message : String)
  | HEARTBEAT_ACK
deriving DecidableEq, Repr

/-- A message handed to `broadcastToAdmins`. -/
inductive AdminMsg where
  | DEVICE_ONLINE (deviceId deviceName : String)
  | DEVICE_OFFLINE (deviceId deviceName : String)
  | PLAYBACK_UPDATE (deviceId contentId campaignId : String) (duration : Nat)
  | DEVICE_STATUS_UPDATE (deviceId : String)
  | SCREENSHOT_READY (deviceId : String)
deriving DecidableEq, Repr

/-- Result of one attempted write in the broadcast loop.  The loop body is
`if (connection.ws.readyState === connection.ws.OPEN)
   connection.ws.send(JSON.stringify(message))` with no try/catch:
`ws.send` on an `OPEN` socket raises no synchronous exception (a transport
write failure is reported asynchronously on the socket itself), so the
outcome of one recipient is determined by that recipient's socket alone. -/
inductive SendOutcome where
  | delivered
  | writeFailed
  | skippedNotOpen
deriving DecidableEq, Repr

/-- One iteration of the broadcast loop for one admin connection. -/
def sendAttempt (connection : AdminConnection) : SendOutcome :=
  if connection.ws.readyState = WsState.OPEN then
    (if connection.ws.failsOnWrite then SendOutcome.writeFailed
     else SendOutcome.delivered)
  else SendOutcome.skippedNotOpen

/-- `broadcastToAdmins(message, tenantId)` (auth.js lines 376-383): iterates
every entry of `adminConnections` and writes the serialized message to each
whose socket is `OPEN`.  The `tenantId` parameter is accepted but never
read — the loop body carries the source comment "In a real implementation,
check if admin belongs to tenant".  Returns the per-observer outcome, keyed
by the registry key. -/
def broadcastToAdmins (message : AdminMsg) (tenantId : String)
    (adminConnections : JsMap AdminConnection) :
    List (String × SendOutcome) :=
  adminConnections.map (fun p => (p.1, sendAttempt p.2))

/-- The observer keys `broadcastToAdmins` actually delivers the message to. -/
def deliveredSet (message : AdminMsg) (tenantId : String)
    (adminConnections : JsMap AdminConnection) : List String :=
  ((broadcastToAdmins message tenantId adminConnections).filter
    (fun p => p.2 == SendOutcome.delivered)).map (fun p => p.1)

/-- The Event Broadcaster `publish` as the spec words it (spec section 4.4):
the event is written exactly to the observers whose `tenantId` equals the
event's `tenantId` or whose `tenantId` is unset (meaning "receive all").
Stated from the spec, for comparison with `broadcastToAdmins`. -/
def publishSpecDelivered (tenantId : String)
    (adminConnections : JsMap AdminConnection) : List String :=
  (adminConnections.filter
    (fun p => p.2.tenantId == none || p.2.tenantId == some tenantId)).map
    (fun p => p.1)

/-- `handleAdminRegister` (auth.js lines 220-242): stores
`{ ws, userId, lastSeen: new Date() }` under `userId` and acknowledges.
No tenant is recorded (the stored object has no `tenantId` property). -/
def handleAdminRegister (adminConnections : JsMap AdminConnection) (ws : Ws)
    (userId : String) (now : Nat) : JsMap AdminConnection × List ServerFrame :=
  (mapSet adminConnections userId ⟨ws, userId, now, none⟩,
   [ServerFrame.REGISTERED userId])

/-- Result of `handleDeviceRegister`.  `closedChannels` records the socket
handles the handler closes by calling `ws.close()`; the source contains no
such call, so the handler always reports an empty list. -/
structure RegisterResult where
  deviceConnections : JsMap DeviceConnection
  effects : List DbEffect
  sent : List ServerFrame
  broadcasts : List (AdminMsg × String)
  closedChannels : List Nat
deriving DecidableEq, Repr

/-- `handleDeviceRegister` (auth.js lines 158-218): looks the device up in
the backing store; on failure replies `ERROR` and does not register; on
success stores `{ ws, deviceId, lastSeen: new Date(), device }` under
`deviceId` (replacing any existing entry), updates the persisted status to
online, appends an "online" device log, acknowledges `REGISTERED`, and
broadcasts `DEVICE_ONLINE` with the device's tenant. -/
def handleDeviceRegister (db : String → Option Device)
    (deviceConnections : JsMap DeviceConnection) (ws : Ws)
    (deviceId : String) (now : Nat) : RegisterResult :=
  match db deviceId with
  | none =>
      ⟨deviceConnections, [], [ServerFrame.ERROR "Device not found"], [], []⟩
  | some device =>
      ⟨mapSet deviceConnections deviceId ⟨ws, deviceId, now, device⟩,
       [DbEffect.updateDeviceOnline deviceId now,
        DbEffect.insertDeviceLog deviceId "online"
          "Device connected via WebSocket"],
       [ServerFrame.REGISTERED deviceId],
       [(AdminMsg.DEVICE_ONLINE deviceId device.name, device.tenant_id)],
       []⟩

/-- Result of `handleHeartbeat`. -/
structure HeartbeatResult where
  deviceConnections : JsMap DeviceConnection
  effects : List DbEffect
  sent : List ServerFrame
deriving DecidableEq, Repr

/-- `handleHeartbeat` (auth.js lines 244-263): if the device id has a
registry entry, sets that entry's `lastSeen` to the current time, updates
the persisted last-seen, and acknowledges `HEARTBEAT_ACK`; otherwise it
does nothing at all. -/
def handleHeartbeat (deviceConnections : JsMap DeviceConnection)
    (deviceId : String) (now : Nat) : HeartbeatResult :=
  if mapHas deviceConnections deviceId then
    ⟨deviceConnections.map (fun p =>
        if p.1 == deviceId then (deviceId, ⟨p.2.ws, p.2.deviceId, now, p.2.device⟩)
        else p),
     [DbEffect.updateDeviceLastSeen deviceId now],
     [ServerFrame.HEARTBEAT_ACK]⟩
  else ⟨deviceConnections, [], []⟩

/-- `handlePlaybackLog` (auth.js lines 265-298): persists the playback
record, looks the device's tenant up, and (when the device exists)
broadcasts `PLAYBACK_UPDATE` with that tenant.  The function never touches
`deviceConnections`. -/
def handlePlaybackLog (db : String → Option Device)
    (deviceId contentId campaignId : String) (duration : Nat) :
    List DbEffect × List (AdminMsg × String) :=
  ([DbEffect.insertPlaybackLog deviceId contentId campaignId duration],
   match db deviceId with
   | some device =>
       [(AdminMsg.PLAYBACK_UPDATE deviceId contentId campaignId duration,
         device.tenant_id)]
   | none => [])

/-- `handleDeviceStatus` (auth.js lines 300-333): upserts device stats and
broadcasts `DEVICE_STATUS_UPDATE`; never touches `deviceConnections`. -/
def handleDeviceStatus (db : String → Option Device) (deviceId : String) :
    List DbEffect × List (AdminMsg × String) :=
  ([DbEffect.upsertDeviceStats deviceId],
   match db deviceId with
   | some device =>
       [(AdminMsg.DEVICE_STATUS_UPDATE deviceId, device.tenant_id)]
   | none => [])

/-- `handleScreenshotResult` (auth.js lines 335-365): persists the
screenshot and broadcasts `SCREENSHOT_READY`; never touches
`deviceConnections`. -/
def handleScreenshotResult (db : String → Option Device) (deviceId : String) :
    List DbEffect × List (AdminMsg × String) :=
  ([DbEffect.insertScreenshot deviceId],
   match db deviceId with
   | some device =>
       [(AdminMsg.SCREENSHOT_READY deviceId, device.tenant_id)]
   | none => [])

/-- An inbound message as parsed by the `ws.on('message')` switch
(auth.js lines 94-123). -/
inductive InMsg where
  | DEVICE_REGISTER (deviceId : String)
  | ADMIN_REGISTER (userId : String)
  | HEARTBEAT (deviceId : String)
  | PLAYBACK_LOG (deviceId contentId campaignId : String) (duration : Nat)
  | DEVICE_STATUS (deviceId : String)
  | SCREENSHOT_RESULT (deviceId : String)
  | unknownType (type : String)
deriving DecidableEq, Repr

/-- The two shared registries. -/
structure ServerState where
  deviceConnections : JsMap DeviceConnection
  adminConnections : JsMap AdminConnection
deriving DecidableEq, Repr

/-- Everything one message's processing produces. -/
structure StepResult where
  state : ServerState
  effects : List DbEffect
  sent : List ServerFrame
  broadcasts : List (AdminMsg × String)
deriving DecidableEq, Repr

/-- The `switch (data.type)` dispatch of the per-connection message handler
(auth.js lines 94-123).  An unknown type is logged and dropped. -/
def dispatchMessage (db : String → Option Device) (s : ServerState) (ws : Ws)
    (now : Nat) (msg : InMsg) : StepResult :=
  match msg with
  | InMsg.DEVICE_REGISTER deviceId =>
      let r := handleDeviceRegister db s.deviceConnections ws deviceId now
      ⟨⟨r.deviceConnections, s.adminConnections⟩, r.effects, r.sent,
        r.broadcasts⟩
  | InMsg.ADMIN_REGISTER userId =>
      let r := handleAdminRegister s.adminConnections ws userId now
      ⟨⟨s.deviceConnections, r.1⟩, [], r.2, []⟩
  | InMsg.HEARTBEAT deviceId =>
      let r := handleHeartbeat s.deviceConnections deviceId now
      ⟨⟨r.deviceConnections, s.adminConnections⟩, r.effects, r.sent, []⟩
  | InMsg.PLAYBACK_LOG deviceId contentId campaignId duration =>
      let r := handlePlaybackLog db deviceId contentId campaignId duration
      ⟨s, r.1, [], r.2⟩
  | InMsg.DEVICE_STATUS deviceId =>
      let r := handleDeviceStatus db deviceId
      ⟨s, r.1, [], r.2⟩
  | InMsg.SCREENSHOT_RESULT deviceId =>
      let r := handleScreenshotResult db deviceId
      ⟨s, r.1, [], r.2⟩
  | InMsg.unknownType _ => ⟨s, [], [], []⟩

/-- The device half of the `ws.on('close')` handler (auth.js lines 125-142):
finds the first device entry whose stored socket is the closing socket
(strict object identity, modelled by `Ws.id`) and deletes that entry's key;
if no entry matches, the registry is untouched.  The identical pattern
appears in server.js lines 61-84. -/
def closeHandlerDevices (ws : Ws)
    (deviceConnections : JsMap DeviceConnection) : JsMap DeviceConnection :=
  match deviceConnections.find? (fun p => p.2.ws.id == ws.id) with
  | some p => mapDelete deviceConnections p.1
  | none => deviceConnections

/-- The admin half of the same `ws.on('close')` handler
(auth.js lines 135-141). -/
def closeHandlerAdmins (ws : Ws)
    (adminConnections : JsMap AdminConnection) : JsMap AdminConnection :=
  match adminConnections.find? (fun p => p.2.ws.id == ws.id) with
  | some p => mapDelete adminConnections p.1
  | none => adminConnections

/-- `broadcastToDevice(deviceId, message)` (auth.js lines 367-374), the
Command Dispatcher: returns true and writes the command iff the registry has
an entry for the id and that entry's socket is `OPEN`; otherwise returns
false.  `sendToDevice` in server.js lines 95-102 is structurally
identical. -/
def broadcastToDevice (deviceConnections : JsMap DeviceConnection)
    (deviceId : String) (message : String) : Bool :=
  match mapGet deviceConnections deviceId with
  | some connection => connection.ws.readyState == WsState.OPEN
  | none => false

/-- The eviction threshold of the offline-cleanup interval:
`const timeout = 5 * 60 * 1000` (auth.js line 388). -/
def timeoutMs : Nat := 5 * 60 * 1000

/-- What one tick of the offline-cleanup interval produces. -/
structure CleanupResult where
  deviceConnections : JsMap DeviceConnection
  effects : List DbEffect
  broadcasts : List (AdminMsg × String)
deriving DecidableEq, Repr

/-- One tick of the offline-cleanup interval (auth.js lines 386-421): walks
`deviceConnections` in order; every entry with `now - lastSeen > timeout`
has its persisted status set to offline, gets an "offline" device log,
is deleted from the registry, and produces one `DEVICE_OFFLINE` broadcast
with its device's tenant (the `if (connection.device)` guard is always
satisfied, since registration stores a `device` in every entry); every
other entry is kept untouched.  The loop deletes only the entry at hand, so
walking the original entry list is the loop itself.  JavaScript computes
`now - lastSeen` on numbers; a negative difference and the truncated-to-zero
natural difference compare to the timeout identically. -/
def cleanupTick (now : Nat) : JsMap DeviceConnection → CleanupResult
  | [] => ⟨[], [], []⟩
  | p :: rest =>
      if now - p.2.lastSeen > timeoutMs then
        ⟨(cleanupTick now rest).deviceConnections,
         DbEffect.updateDeviceStatusOffline p.1 ::
           DbEffect.insertDeviceLog p.1 "offline"
             "Device disconnected (timeout)" ::
           (cleanupTick now rest).effects,
         (AdminMsg.DEVICE_OFFLINE p.1 p.2.device.name,
           p.2.device.tenant_id) :: (cleanupTick now rest).broadcasts⟩
      else
        ⟨p :: (cleanupTick now rest).deviceConnections,
         (cleanupTick now rest).effects, (cleanupTick now rest).broadcasts⟩

/-- Whether a broadcast entry is a `DEVICE_OFFLINE` for the given device. -/
def isOfflineFor (deviceId : String) (b : AdminMsg × String) : Bool :=
  match b.1 with
  | AdminMsg.DEVICE_OFFLINE d _ => d == deviceId
  | _ => false

/-!
Execution model for the ordering claim.  Each `ws.on('message', async ...)`
invocation is an independent asynchronous task: the emitter does not await
the listener's promise, so the handler of a later message from the same
connection starts as soon as its frame arrives, even while an earlier
handler is suspended at an `await`.  A handler is therefore a list of
segments — the synchronous runs between `await`ed backing-store calls — and
an execution of two handlers is any interleaving of their segment lists.
-/

/-- An atomic action inside a handler segment. -/
inductive EventAction where
  | dbCall (table : String)
  | registryWrite (deviceId : String)
  | sendFrame (f : ServerFrame)
  | adminBroadcast (m : AdminMsg)
deriving DecidableEq, Repr

/-- The success path of `handleDeviceRegister` cut at its `await`s
(auth.js lines 158-218): initiate the device lookup; resume, store the
registry entry and initiate the status update; resume and initiate the log
insert; resume, acknowledge and broadcast `DEVICE_ONLINE`. -/
def registerSegments (deviceId deviceName : String) :
    List (List EventAction) :=
  [[EventAction.dbCall "devices.select"],
   [EventAction.registryWrite deviceId, EventAction.dbCall "devices.update"],
   [EventAction.dbCall "device_logs.insert"],
   [EventAction.sendFrame (ServerFrame.REGISTERED deviceId),
    EventAction.adminBroadcast (AdminMsg.DEVICE_ONLINE deviceId deviceName)]]

/-- `handlePlaybackLog` cut at its `await`s (auth.js lines 265-298):
initiate the playback insert; resume and initiate the tenant lookup;
resume and broadcast `PLAYBACK_UPDATE`. -/
def playbackSegments (deviceId contentId campaignId : String)
    (duration : Nat) : List (List EventAction) :=
  [[EventAction.dbCall "playback_logs.insert"],
   [EventAction.dbCall "devices.select"],
   [EventAction.adminBroadcast
      (AdminMsg.PLAYBACK_UPDATE deviceId contentId campaignId duration)]]

/-- `Interleaves xs ys zs`: zs is an order-preserving merge of xs and ys. -/
inductive Interleaves {α : Type} : List α → List α → List α → Prop where
  | nil : Interleaves [] [] []
  | left : ∀ {x : α} {xs ys zs : List α},
      Interleaves xs ys zs → Interleaves (x :: xs) ys (x :: zs)
  | right : ∀ {y : α} {xs ys zs : List α},
      Interleaves xs ys zs → Interleaves xs (y :: ys) (y :: zs)

/-- The action traces two concurrently running handlers can produce: any
order-preserving merge of their segment lists, flattened.  (The event loop
may resume either task whenever the other is suspended at an `await`; each
segment itself runs without interruption.) -/
def ConnTrace (segs1 segs2 : List (List EventAction))
    (tr : List EventAction) : Prop :=
  ∃ segTr, Interleaves segs1 segs2 segTr ∧ tr = segTr.flatten

/-- Distinctness of the stored socket handles across registry entries: each
open socket is registered at most once (one close handler per socket). -/
def NodupWs (adminConnections : JsMap AdminConnection) : Prop :=
  (adminConnections.map (fun p => p.2.ws.id)).Nodup

/-- One externally observable operation on a fixed `deviceId`: a successful
registration (the registry mutation of `handleDeviceRegister`, auth.js line
178) or the close handler run for a socket (auth.js lines 125-142). -/
inductive RegistryOp where
  | register (ws : Ws) (device : Device) (now : Nat)
  | close (ws : Ws)
deriving Repr

/-- Apply one operation to the device registry. -/
def applyOp (deviceId : String) (reg : JsMap DeviceConnection)
    (op : RegistryOp) : JsMap DeviceConnection :=
  match op with
  | RegistryOp.register ws device now =>
      mapSet reg deviceId ⟨ws, deviceId, now, device⟩
  | RegistryOp.close ws => closeHandlerDevices ws reg

/-- Run a sequence of register/close operations on one `deviceId`, starting
from the empty registry. -/
def runOps (deviceId : String) (ops : List RegistryOp) :
    JsMap DeviceConnection :=
  ops.foldl (applyOp deviceId) []

/-- The connection entry the most recent registration in `ops` created. -/
def lastStep (deviceId : String) (acc : Option DeviceConnection)
    (op : RegistryOp) : Option DeviceConnection :=
  match op with
  | RegistryOp.register ws device now => some ⟨ws, deviceId, now, device⟩
  | RegistryOp.close _ => acc

/-- The entry created by the most recent registration in `ops`, if any. -/
def lastRegistered (deviceId : String) (ops : List RegistryOp) :
    Option DeviceConnection :=
  ops.foldl (lastStep deviceId) none

/-! Concrete fixtures used by counterexamples and witnesses. -/

/-- An open socket. -/
def wsOpen1 : Ws := ⟨1, WsState.OPEN, false⟩

/-- A second, distinct open socket. -/
def wsOpen2 : Ws := ⟨2, WsState.OPEN, false⟩

/-- A socket whose transport has already closed. -/
def wsClosed3 : Ws := ⟨3, WsState.CLOSED, false⟩

/-- An open socket whose transport errors on write. -/
def wsFailing4 : Ws := ⟨4, WsState.OPEN, true⟩

/-- A device row of tenant "tenantA". -/
def devA : Device := ⟨"d1", "Lobby TV", "tenantA"⟩

/-- A backing store knowing exactly the device "d1". -/
def dbA : String → Option Device :=
  fun s => if s == "d1" then some devA else none

/-- A device connection for "d1" on `wsOpen1`, last seen at time 0. -/
def connOld : DeviceConnection := ⟨wsOpen1, "d1", 0, devA⟩

/-- A device connection for "d1" on `wsOpen2`, as created by a later
registration. -/
def connNew : DeviceConnection := ⟨wsOpen2, "d1", 40, devA⟩

/-- An observer that, in the spec's data model, is registered under tenant
"tenantB"; the code's registration path cannot even record the tenant. -/
def observerB : AdminConnection := ⟨⟨7, WsState.OPEN, false⟩, "uB", 0, some "tenantB"⟩

/-- An observer on a healthy open socket. -/
def observerOk : AdminConnection := ⟨wsOpen1, "u1", 0, none⟩

/-- An observer whose socket errors on write. -/
def observerBad : AdminConnection := ⟨wsFailing4, "u2", 0, none⟩

/-- A concrete interleaved schedule of the registration handler and a later
playback handler of the same connection: the registration task initiates its
device lookup (its first `await`), the playback handler then runs to
completion while that lookup is pending, and the registration task resumes
afterwards. -/
def badSchedule : List (List EventAction) :=
  [[EventAction.dbCall "devices.select"],
   [EventAction.dbCall "playback_logs.insert"],
   [EventAction.dbCall "devices.select"],
   [EventAction.adminBroadcast
      (AdminMsg.PLAYBACK_UPDATE "d1" "c1" "k1" 30)],
   [EventAction.registryWrite "d1", EventAction.dbCall "devices.update"],
   [EventAction.dbCall "device_logs.insert"],
   [EventAction.sendFrame (ServerFrame.REGISTERED "d1"),
    EventAction.adminBroadcast (AdminMsg.DEVICE_ONLINE "d1" "Lobby TV")]]

/-! ### General lemmas about the registry operations -/

/- Basic Map lemmas. -/

theorem mapGet_eq_some_of_mem {α : Type} {m : JsMap α} {k : String} {v : α}
    (hnd : NodupKeys m) (hmem : (k, v) ∈ m) : mapGet m k = some v := by
  induction m with
  | nil => cases hmem
  | cons p rest ih =>
    rcases List.mem_cons.mp hmem with h | h
    · rw [← h]
      simp [mapGet, List.find?_cons]
    · have hk : k ∈ rest.map (fun p => p.1) :=
        List.mem_map.mpr ⟨(k, v), h, rfl⟩
      have hnd0 := List.nodup_cons.mp hnd
      have hb : (p.1 == k) = false := by
        apply beq_false_of_ne
        intro he
        exact hnd0.1 (by simpa [he] using hk)
      have hrec := ih hnd0.2 h
      simpa [mapGet, List.find?_cons, hb] using hrec

theorem mem_of_mapGet_eq_some {α : Type} {m : JsMap α} {k : String} {v : α}
    (h : mapGet m k = some v) : (k, v) ∈ m := by
  unfold mapGet at h
  rcases ho : m.find? (fun p => p.1 == k) with _ | p
  · rw [ho] at h; cases h
  · rw [ho] at h
    obtain ⟨a, b⟩ := p
    have hk : a = k := by simpa using List.find?_some ho
    have hv : b = v := by simpa using h
    have hmem := List.mem_of_find?_eq_some ho
    rw [hk, hv] at hmem
    exact hmem

theorem mapGet_eq_none_iff {α : Type} {m : JsMap α} {k : String} :
    mapGet m k = none ↔ ∀ v, (k, v) ∉ m := by
  unfold mapGet
  constructor
  · intro h v hmem
    rcases ho : m.find? (fun p => p.1 == k) with _ | p
    · have := List.find?_eq_none.mp ho (k, v) hmem
      simp at this
    · rw [ho] at h; cases h
  · intro h
    rcases ho : m.find? (fun p => p.1 == k) with _ | p
    · rw [ho]; rfl
    · obtain ⟨a, b⟩ := p
      have hk : a = k := by simpa using List.find?_some ho
      have hmem := List.mem_of_find?_eq_some ho
      rw [hk] at hmem
      exact absurd hmem (h b)

theorem mapGet_map_update {α : Type} (m : JsMap α) (k : String) (v : α)
    (h : mapHas m k = true) :
    mapGet (m.map (fun p => if p.1 == k then (k, v) else p)) k = some v := by
  induction m with
  | nil => simp [mapHas] at h
  | cons p rest ih =>
    by_cases hk : p.1 = k
    · simp [mapGet, List.find?_cons, hk]
    · have hb : (p.1 == k) = false := by simpa using hk
      have h' : mapHas rest k = true := by
        unfold mapHas at h
        rw [List.find?_cons, hb] at h
        exact h
      have hrec := ih h'
      unfold mapGet at hrec ⊢
      rw [List.map_cons]
      rw [show (if p.1 == k then (k, v) else p) = p from if_neg (by simp [hb])]
      rw [List.find?_cons, hb]
      exact hrec

theorem mapGet_mapSet_same {α : Type} (m : JsMap α) (k : String) (v : α) :
    mapGet (mapSet m k v) k = some v := by
  unfold mapSet
  by_cases h : mapHas m k = true
  · rw [if_pos h]
    exact mapGet_map_update m k v h
  · rw [if_neg h]
    unfold mapGet
    rw [List.find?_append]
    have hnone : m.find? (fun p => p.1 == k) = none := by
      unfold mapHas at h
      exact Option.not_isSome_iff_eq_none.mp h
    rw [hnone]
    simp [List.find?_cons]

theorem mapGet_mapDelete_same {α : Type} (m : JsMap α) (k : String) :
    mapGet (mapDelete m k) k = none := by
  unfold mapGet mapDelete
  rw [Option.map_eq_none']
  rw [List.find?_eq_none]
  intro p hp
  have hmem := List.mem_filter.mp hp
  have hne : (p.1 != k) = true := hmem.2
  simp only [beq_iff_eq]
  simpa using hne

theorem mapGet_mapDelete_ne {α : Type} (m : JsMap α) {k d : String}
    (h : k ≠ d) : mapGet (mapDelete m k) d = mapGet m d := by
  induction m with
  | nil => rfl
  | cons p rest ih =>
    by_cases hk : p.1 = k
    · have hb : (p.1 != k) = false := by simp [hk]
      have hd : (p.1 == d) = false := by
        rw [hk]
        simpa using h
      simpa [mapGet, mapDelete, List.filter_cons, List.find?_cons, hb, hd]
        using ih
    · have hb : (p.1 != k) = true := by simp [hk]
      by_cases hd : p.1 = d
      · have hd2 : (p.1 == d) = true := by simpa using hd
        simp [mapGet, mapDelete, List.filter_cons, List.find?_cons, hb, hd2]
      · have hd2 : (p.1 == d) = false := by simpa using hd
        simpa [mapGet, mapDelete, List.filter_cons, List.find?_cons, hb, hd2]
          using ih

theorem nodupKeys_filter {α : Type} (m : JsMap α) (q : String × α → Bool)
    (hnd : NodupKeys m) : NodupKeys (m.filter q) := by
  unfold NodupKeys at hnd ⊢
  exact (List.Sublist.map (fun p => p.1) (List.filter_sublist m)).nodup hnd

theorem unique_value_of_nodup {α : Type} {m : JsMap α} {k : String} {v w : α}
    (hnd : NodupKeys m) (hv : (k, v) ∈ m) (hw : (k, w) ∈ m) : v = w := by
  have h1 := mapGet_eq_some_of_mem hnd hv
  have h2 := mapGet_eq_some_of_mem hnd hw
  rw [h1] at h2
  exact (Option.some.injEq _ _).mp h2


theorem interleaves_left_all {α : Type} (xs : List α) :
    Interleaves xs [] xs := by
  induction xs with
  | nil => exact Interleaves.nil
  | cons x xs ih => exact Interleaves.left ih

theorem interleaves_append {α : Type} (xs ys : List α) :
    Interleaves xs ys (xs ++ ys) := by
  induction xs with
  | nil =>
      induction ys with
      | nil => exact Interleaves.nil
      | cons y ys ih => exact Interleaves.right ih
  | cons x xs ih => exact Interleaves.left ih


theorem mapHas_of_mapGet_some {α : Type} {m : JsMap α} {k : String} {v : α}
    (h : mapGet m k = some v) : mapHas m k = true := by
  unfold mapGet at h
  unfold mapHas
  rcases ho : m.find? (fun p => p.1 == k) with _ | p
  · rw [ho] at h; cases h
  · rw [ho]; rfl

theorem mapHas_eq_false_of_mapGet_none {α : Type} {m : JsMap α} {k : String}
    (h : mapGet m k = none) : mapHas m k = false := by
  unfold mapGet at h
  unfold mapHas
  rw [Option.map_eq_none'] at h
  rw [h]
  rfl

theorem mapGet_map_touch {α : Type} (m : JsMap α) (k : String) (f : α → α)
    {v : α} (hv : mapGet m k = some v) :
    mapGet (m.map (fun p => if p.1 == k then (k, f p.2) else p)) k
      = some (f v) := by
  induction m with
  | nil => cases hv
  | cons p rest ih =>
    by_cases hk : p.1 = k
    · have hb : (p.1 == k) = true := by simpa using hk
      unfold mapGet at hv
      rw [List.find?_cons, hb] at hv
      have hpv : p.2 = v := by simpa using hv
      unfold mapGet
      rw [List.map_cons]
      rw [show (if p.1 == k then (k, f p.2) else p) = (k, f p.2) from
        if_pos hb]
      rw [List.find?_cons]
      simp [hpv]
    · have hb : (p.1 == k) = false := by simpa using hk
      unfold mapGet at hv
      rw [List.find?_cons, hb] at hv
      have hrec := ih hv
      unfold mapGet at hrec ⊢
      rw [List.map_cons]
      rw [show (if p.1 == k then (k, f p.2) else p) = p from
        if_neg (by simp [hb])]
      rw [List.find?_cons, hb]
      exact hrec

/-! ### The claims -/

/-- C2, counterexample: a registry entry whose socket is no longer OPEN is
present in the registry, yet `broadcastToDevice` returns delivered=false —
so delivered=true is not equivalent to bare presence. -/
theorem dispatch_present_entry_not_delivered :
    mapHas [("d1", DeviceConnection.mk wsClosed3 "d1" 0 devA)] "d1" = true ∧
    broadcastToDevice [("d1", DeviceConnection.mk wsClosed3 "d1" 0 devA)]
      "d1" "BLOCK_DEVICE" = false := by
  constructor
  · rfl
  · rfl

/-- C2 (amended): `broadcastToDevice` returns delivered=true iff the device
id is present in the registry and the stored socket is OPEN; for an id with
no entry — in particular one never registered — it returns delivered=false,
and it is a total function (no error path). -/
theorem dispatchCommand_delivered_iff
    (deviceConnections : JsMap DeviceConnection) (deviceId message : String) :
    (broadcastToDevice deviceConnections deviceId message = true ↔
      ∃ c, mapGet deviceConnections deviceId = some c ∧
        c.ws.readyState = WsState.OPEN) ∧
    (mapGet deviceConnections deviceId = none →
      broadcastToDevice deviceConnections deviceId message = false) := by
  constructor
  · constructor
    · intro h
      unfold broadcastToDevice at h
      rcases hg : mapGet deviceConnections deviceId with _ | c
      · rw [hg] at h; cases h
      · rw [hg] at h
        exact ⟨c, rfl, by simpa using h⟩
    · rintro ⟨c, hc, hopen⟩
      unfold broadcastToDevice
      rw [hc]
      simpa using hopen
  · intro h
    unfold broadcastToDevice
    rw [h]

/-- C2 witness: a never-registered id on the empty registry. -/
theorem dispatchCommand_delivered_iff_witness :
    broadcastToDevice ([] : JsMap DeviceConnection) "ghost" "cmd" = false :=
  (dispatchCommand_delivered_iff [] "ghost" "cmd").2 rfl

/-- C6, counterexample: "d1" is registered on an OPEN socket; a second
registration for "d1" on a different socket replaces the entry, but the
handler closes no socket (`closedChannels` is empty) and the superseded
socket is still OPEN — the old channel leaks. -/
theorem double_registration_leaves_old_channel_open :
    mapHas [("d1", connOld)] "d1" = true ∧
    mapGet (handleDeviceRegister dbA [("d1", connOld)] wsOpen2 "d1"
        50).deviceConnections "d1" = some ⟨wsOpen2, "d1", 50, devA⟩ ∧
    (handleDeviceRegister dbA [("d1", connOld)] wsOpen2 "d1"
        50).closedChannels = [] ∧
    connOld.ws.readyState = WsState.OPEN := by
  refine ⟨rfl, by decide, rfl, rfl⟩

/-- C6 (amended): a registration for an id the backing store knows replaces
any existing entry for that id with the new connection, but does not close
the superseded connection's channel (the handler performs no `ws.close()`
at all; the old socket stays in whatever state it was). -/
theorem register_replaces_entry_without_closing
    (db : String → Option Device)
    (deviceConnections : JsMap DeviceConnection) (ws : Ws)
    (deviceId : String) (now : Nat) (device : Device)
    (hdb : db deviceId = some device) :
    mapGet (handleDeviceRegister db deviceConnections ws deviceId
        now).deviceConnections deviceId = some ⟨ws, deviceId, now, device⟩ ∧
    (handleDeviceRegister db deviceConnections ws deviceId
        now).closedChannels = [] := by
  unfold handleDeviceRegister
  rw [hdb]
  exact ⟨mapGet_mapSet_same _ _ _, rfl⟩

/-- C6 witness: the amended statement at the concrete double registration. -/
theorem register_replaces_entry_without_closing_witness :
    mapGet (handleDeviceRegister dbA [("d1", connOld)] wsOpen2 "d1"
        77).deviceConnections "d1" = some ⟨wsOpen2, "d1", 77, devA⟩ ∧
    (handleDeviceRegister dbA [("d1", connOld)] wsOpen2 "d1"
        77).closedChannels = [] :=
  register_replaces_entry_without_closing dbA [("d1", connOld)] wsOpen2
    "d1" 77 devA (by decide)

/-- C10: a HEARTBEAT whose deviceId has no registry entry is a complete
no-op — registry unchanged, no backing-store call, no HEARTBEAT_ACK. -/
theorem heartbeat_unknown_device_is_noop
    (deviceConnections : JsMap DeviceConnection) (deviceId : String)
    (now : Nat) (h : mapGet deviceConnections deviceId = none) :
    handleHeartbeat deviceConnections deviceId now
      = ⟨deviceConnections, [], []⟩ := by
  unfold handleHeartbeat
  rw [mapHas_eq_false_of_mapGet_none h]
  rfl

/-- C10 witness: a heartbeat for an unknown device on a nonempty registry. -/
theorem heartbeat_unknown_device_is_noop_witness :
    handleHeartbeat [("d1", connOld)] "ghost" 120
      = ⟨[("d1", connOld)], [], []⟩ :=
  heartbeat_unknown_device_is_noop [("d1", connOld)] "ghost" 120 (by decide)

/-- C7, counterexample: "d1" is registered with `lastSeen = 0`; a
PLAYBACK_LOG from it is processed at time 999, yet its registry entry — and
so its `lastSeen` — is unchanged (and no persisted last-seen update is
issued): an inbound application message other than HEARTBEAT does not
update `lastSeen`. -/
theorem playback_message_does_not_update_lastSeen :
    mapGet (dispatchMessage dbA ⟨[("d1", connOld)], []⟩ wsOpen1 999
        (InMsg.PLAYBACK_LOG "d1" "c1" "k1" 30)).state.deviceConnections "d1"
      = some connOld ∧
    connOld.lastSeen = 0 ∧
    (DbEffect.updateDeviceLastSeen "d1" 999 ∉
      (dispatchMessage dbA ⟨[("d1", connOld)], []⟩ wsOpen1 999
        (InMsg.PLAYBACK_LOG "d1" "c1" "k1" 30)).effects) := by
  refine ⟨by decide, rfl, by decide⟩

/-- C7 (amended): among the recognized device-originated message kinds, only
HEARTBEAT updates the connection's `lastSeen` (setting it to the processing
time); PLAYBACK_LOG, DEVICE_STATUS and SCREENSHOT_RESULT leave the whole
registry state — and hence `lastSeen` — unchanged. -/
theorem lastSeen_updated_only_by_heartbeat
    (db : String → Option Device) (s : ServerState) (ws : Ws) (now : Nat)
    (deviceId contentId campaignId : String) (duration : Nat)
    (c : DeviceConnection)
    (hc : mapGet s.deviceConnections deviceId = some c) :
    mapGet (dispatchMessage db s ws now
        (InMsg.HEARTBEAT deviceId)).state.deviceConnections deviceId
      = some ⟨c.ws, c.deviceId, now, c.device⟩ ∧
    (dispatchMessage db s ws now
      (InMsg.PLAYBACK_LOG deviceId contentId campaignId duration)).state = s ∧
    (dispatchMessage db s ws now (InMsg.DEVICE_STATUS deviceId)).state = s ∧
    (dispatchMessage db s ws now (InMsg.SCREENSHOT_RESULT deviceId)).state
      = s := by
  refine ⟨?_, rfl, rfl, rfl⟩
  show mapGet (handleHeartbeat s.deviceConnections deviceId
      now).deviceConnections deviceId = _
  unfold handleHeartbeat
  rw [if_pos (mapHas_of_mapGet_some hc)]
  exact mapGet_map_touch s.deviceConnections deviceId
    (fun c => ⟨c.ws, c.deviceId, now, c.device⟩) hc

/-- C7 witness: the amended statement at the concrete registry. -/
theorem lastSeen_updated_only_by_heartbeat_witness :
    mapGet (dispatchMessage dbA ⟨[("d1", connOld)], []⟩ wsOpen1 999
        (InMsg.HEARTBEAT "d1")).state.deviceConnections "d1"
      = some ⟨wsOpen1, "d1", 999, devA⟩ ∧
    (dispatchMessage dbA ⟨[("d1", connOld)], []⟩ wsOpen1 999
      (InMsg.PLAYBACK_LOG "d1" "c1" "k1" 30)).state
      = ⟨[("d1", connOld)], []⟩ :=
  ⟨(lastSeen_updated_only_by_heartbeat dbA ⟨[("d1", connOld)], []⟩ wsOpen1
      999 "d1" "c1" "k1" 30 connOld (by decide)).1,
   (lastSeen_updated_only_by_heartbeat dbA ⟨[("d1", connOld)], []⟩ wsOpen1
      999 "d1" "c1" "k1" 30 connOld (by decide)).2.1⟩

theorem applyOp_preserves (deviceId : String) (op : RegistryOp)
    (reg : JsMap DeviceConnection) (r : Option DeviceConnection)
    (h : reg = [] ∨ ∃ c, reg = [(deviceId, c)] ∧ r = some c) :
    applyOp deviceId reg op = [] ∨
      ∃ c, applyOp deviceId reg op = [(deviceId, c)] ∧
        lastStep deviceId r op = some c := by
  rcases op with ⟨ws, device, now⟩ | ⟨ws⟩
  · rcases h with h | ⟨c, hreg, hr⟩
    · subst h
      right
      exact ⟨⟨ws, deviceId, now, device⟩, by simp [applyOp, mapSet, mapHas], rfl⟩
    · subst hreg
      right
      refine ⟨⟨ws, deviceId, now, device⟩, ?_, rfl⟩
      simp [applyOp, mapSet, mapHas, List.find?_cons]
  · rcases h with h | ⟨c, hreg, hr⟩
    · subst h
      left
      rfl
    · subst hreg
      by_cases hws : c.ws.id = ws.id
      · left
        have hb : (c.ws.id == ws.id) = true := by simpa using hws
        simp [applyOp, closeHandlerDevices, List.find?_cons, hb, mapDelete]
      · right
        have hb : (c.ws.id == ws.id) = false := by simpa using hws
        refine ⟨c, ?_, hr⟩
        simp [applyOp, closeHandlerDevices, List.find?_cons, hb, lastStep]

theorem runOps_invariant (deviceId : String) (ops : List RegistryOp) :
    ∀ (reg : JsMap DeviceConnection) (r : Option DeviceConnection),
      (reg = [] ∨ ∃ c, reg = [(deviceId, c)] ∧ r = some c) →
      (ops.foldl (applyOp deviceId) reg = [] ∨
        ∃ c, ops.foldl (applyOp deviceId) reg = [(deviceId, c)] ∧
          ops.foldl (lastStep deviceId) r = some c) := by
  induction ops with
  | nil => intro reg r h; simpa using h
  | cons op ops ih =>
      intro reg r h
      exact ih _ _ (applyOp_preserves deviceId op reg r h)

/-- C4: after any sequence of register/close operations on one `deviceId`,
the registry holds at most one entry for that id, and when an entry exists
it is the connection created by the most recent registration. -/
theorem registry_at_most_one_entry (deviceId : String)
    (ops : List RegistryOp) :
    countKey (runOps deviceId ops) deviceId ≤ 1 ∧
    ∀ c, mapGet (runOps deviceId ops) deviceId = some c →
      lastRegistered deviceId ops = some c := by
  have h := runOps_invariant deviceId ops [] none (Or.inl rfl)
  unfold runOps lastRegistered
  rcases h with h | ⟨c, hreg, hlast⟩
  · rw [h]
    constructor
    · simp [countKey]
    · intro c hc
      cases hc
  · rw [hreg]
    constructor
    · simp [countKey, List.filter_cons]
    · intro c2 hc
      have : c = c2 := by
        unfold mapGet at hc
        rw [List.find?_cons] at hc
        simpa using hc
      rw [← this]
      exact hlast

/-- C4 witness: two successive registrations of "d1"; the surviving entry is
the second one. -/
theorem registry_at_most_one_entry_witness :
    countKey (runOps "d1" [RegistryOp.register wsOpen1 devA 5,
        RegistryOp.register wsOpen2 devA 7]) "d1" ≤ 1 ∧
    lastRegistered "d1" [RegistryOp.register wsOpen1 devA 5,
        RegistryOp.register wsOpen2 devA 7] = some ⟨wsOpen2, "d1", 7, devA⟩ :=
  ⟨(registry_at_most_one_entry "d1" _).1,
   (registry_at_most_one_entry "d1" _).2 ⟨wsOpen2, "d1", 7, devA⟩ (by decide)⟩

/-- C5: the close handler removes only the entry holding the closing socket
itself; if the registry's entry for `deviceId` stores a different socket
(the old one was superseded), processing the stale close leaves that newer
entry in place. -/
theorem stale_close_preserves_newer_entry (ws : Ws)
    (deviceConnections : JsMap DeviceConnection)
    (hnd : NodupKeys deviceConnections) (deviceId : String)
    (c : DeviceConnection)
    (hc : mapGet deviceConnections deviceId = some c)
    (hne : c.ws.id ≠ ws.id) :
    mapGet (closeHandlerDevices ws deviceConnections) deviceId = some c := by
  unfold closeHandlerDevices
  rcases hf : deviceConnections.find? (fun p => p.2.ws.id == ws.id)
    with _ | q
  · rw [hf]
    exact hc
  · rw [hf]
    by_cases hkey : q.1 = deviceId
    · exfalso
      have hqmem := List.mem_of_find?_eq_some hf
      have hqws := List.find?_some hf
      obtain ⟨qk, qc⟩ := q
      simp only at hkey
      subst hkey
      have hcmem : (qk, c) ∈ deviceConnections := mem_of_mapGet_eq_some hc
      have hqc : qc = c := unique_value_of_nodup hnd hqmem hcmem
      rw [hqc] at hqws
      exact hne (by simpa using hqws)
    · show mapGet (mapDelete deviceConnections q.1) deviceId = some c
      rw [mapGet_mapDelete_ne _ hkey]
      exact hc

/-- C5 witness: "d1" holds the newer socket (id 2); the close of the
superseded socket (id 1) leaves it untouched. -/
theorem stale_close_preserves_newer_entry_witness :
    mapGet (closeHandlerDevices wsOpen1 [("d1", connNew)]) "d1"
      = some connNew :=
  stale_close_preserves_newer_entry wsOpen1 [("d1", connNew)]
    (by unfold NodupKeys; decide) "d1" connNew (by decide) (by decide)

theorem cleanupTick_conns_subset (now : Nat) :
    ∀ (m : JsMap DeviceConnection) (q : String × DeviceConnection),
      q ∈ (cleanupTick now m).deviceConnections → q ∈ m := by
  intro m
  induction m with
  | nil => intro q hq; cases hq
  | cons p rest ih =>
      intro q hq
      simp only [cleanupTick] at hq
      by_cases hst : now - p.2.lastSeen > timeoutMs
      · rw [if_pos hst] at hq
        exact List.mem_cons_of_mem p (ih q hq)
      · rw [if_neg hst] at hq
        rcases List.mem_cons.mp hq with h | h
        · rw [h]; exact List.mem_cons_self p rest
        · exact List.mem_cons_of_mem p (ih q h)

theorem cleanupTick_broadcasts_filter_none (now : Nat) (d : String) :
    ∀ (m : JsMap DeviceConnection), (∀ v, (d, v) ∉ m) →
      (cleanupTick now m).broadcasts.filter (isOfflineFor d) = [] := by
  intro m
  induction m with
  | nil => intro _; rfl
  | cons p rest ih =>
      intro h
      have hp : p.1 ≠ d := by
        intro he
        exact h p.2 (by rw [← he]; exact List.mem_cons_self p rest)
      have hrest : ∀ v, (d, v) ∉ rest :=
        fun v hv => h v (List.mem_cons_of_mem p hv)
      simp only [cleanupTick]
      by_cases hst : now - p.2.lastSeen > timeoutMs
      · rw [if_pos hst]
        rw [List.filter_cons]
        have hb : (p.1 == d) = false := by simpa using hp
        rw [if_neg (by simp [isOfflineFor, hb])]
        exact ih hrest
      · rw [if_neg hst]
        exact ih hrest

theorem cleanupTick_removes_stale (now : Nat) (d : String)
    (c : DeviceConnection) :
    ∀ (m : JsMap DeviceConnection), NodupKeys m → (d, c) ∈ m →
      now - c.lastSeen > timeoutMs →
      mapGet (cleanupTick now m).deviceConnections d = none := by
  intro m
  induction m with
  | nil => intro _ hmem _; cases hmem
  | cons p rest ih =>
      intro hnd hmem hstale
      have hnd0 := List.nodup_cons.mp hnd
      simp only [cleanupTick]
      rcases List.mem_cons.mp hmem with h | h
      · rw [← h] at hnd0 ⊢
        rw [if_pos hstale]
        rw [mapGet_eq_none_iff]
        intro v hv
        have hsub := cleanupTick_conns_subset now rest (d, v) hv
        exact hnd0.1 (List.mem_map.mpr ⟨(d, v), hsub, rfl⟩)
      · have hpd : p.1 ≠ d :=
          fun he => hnd0.1 (List.mem_map.mpr ⟨(d, c), h, he.symm⟩)
        have hb : (p.1 == d) = false := by simpa using hpd
        by_cases hst : now - p.2.lastSeen > timeoutMs
        · rw [if_pos hst]
          exact ih hnd0.2 h hstale
        · rw [if_neg hst]
          have hrec := ih hnd0.2 h hstale
          unfold mapGet at hrec ⊢
          rw [List.find?_cons, hb]
          exact hrec

theorem cleanupTick_effects_mem (now : Nat) (d : String)
    (c : DeviceConnection) :
    ∀ (m : JsMap DeviceConnection), (d, c) ∈ m →
      now - c.lastSeen > timeoutMs →
      DbEffect.updateDeviceStatusOffline d ∈ (cleanupTick now m).effects ∧
      DbEffect.insertDeviceLog d "offline" "Device disconnected (timeout)"
        ∈ (cleanupTick now m).effects := by
  intro m
  induction m with
  | nil => intro hmem _; cases hmem
  | cons p rest ih =>
      intro hmem hstale
      simp only [cleanupTick]
      rcases List.mem_cons.mp hmem with h | h
      · rw [← h]
        rw [if_pos hstale]
        constructor
        · exact List.mem_cons_self _ _
        · exact List.mem_cons_of_mem _ (List.mem_cons_self _ _)
      · by_cases hst : now - p.2.lastSeen > timeoutMs
        · rw [if_pos hst]
          have hrec := ih h hstale
          exact ⟨List.mem_cons_of_mem _ (List.mem_cons_of_mem _ hrec.1),
                 List.mem_cons_of_mem _ (List.mem_cons_of_mem _ hrec.2)⟩
        · rw [if_neg hst]
          exact ih h hstale

theorem cleanupTick_broadcast_singleton (now : Nat) (d : String)
    (c : DeviceConnection) :
    ∀ (m : JsMap DeviceConnection), NodupKeys m → (d, c) ∈ m →
      now - c.lastSeen > timeoutMs →
      (cleanupTick now m).broadcasts.filter (isOfflineFor d)
        = [(AdminMsg.DEVICE_OFFLINE d c.device.name,
            c.device.tenant_id)] := by
  intro m
  induction m with
  | nil => intro _ hmem _; cases hmem
  | cons p rest ih =>
      intro hnd hmem hstale
      have hnd0 := List.nodup_cons.mp hnd
      simp only [cleanupTick]
      rcases List.mem_cons.mp hmem with h | h
      · rw [← h] at hnd0 ⊢
        rw [if_pos hstale]
        rw [List.filter_cons]
        rw [if_pos (by simp [isOfflineFor])]
        have hno : ∀ v, (d, v) ∉ rest :=
          fun v hv => hnd0.1 (List.mem_map.mpr ⟨(d, v), hv, rfl⟩)
        rw [cleanupTick_broadcasts_filter_none now d rest hno]
      · have hpd : p.1 ≠ d :=
          fun he => hnd0.1 (List.mem_map.mpr ⟨(d, c), h, he.symm⟩)
        have hb : (p.1 == d) = false := by simpa using hpd
        by_cases hst : now - p.2.lastSeen > timeoutMs
        · rw [if_pos hst]
          rw [List.filter_cons]
          rw [if_neg (by simp [isOfflineFor, hb])]
          exact ih hnd0.2 h hstale
        · rw [if_neg hst]
          exact ih hnd0.2 h hstale

theorem cleanupTick_keeps_fresh (now : Nat) (d : String)
    (c : DeviceConnection) :
    ∀ (m : JsMap DeviceConnection), NodupKeys m → (d, c) ∈ m →
      ¬(now - c.lastSeen > timeoutMs) →
      mapGet (cleanupTick now m).deviceConnections d = some c := by
  intro m
  induction m with
  | nil => intro _ hmem _; cases hmem
  | cons p rest ih =>
      intro hnd hmem hfresh
      have hnd0 := List.nodup_cons.mp hnd
      simp only [cleanupTick]
      rcases List.mem_cons.mp hmem with h | h
      · rw [← h]
        rw [if_neg hfresh]
        unfold mapGet
        rw [List.find?_cons]
        simp
      · have hpd : p.1 ≠ d :=
          fun he => hnd0.1 (List.mem_map.mpr ⟨(d, c), h, he.symm⟩)
        have hb : (p.1 == d) = false := by simpa using hpd
        by_cases hst : now - p.2.lastSeen > timeoutMs
        · rw [if_pos hst]
          exact ih hnd0.2 h hfresh
        · rw [if_neg hst]
          have hrec := ih hnd0.2 h hfresh
          unfold mapGet at hrec ⊢
          rw [List.find?_cons, hb]
          exact hrec

/-- C3: at a tick of the offline-cleanup interval, every registry entry
whose `lastSeen` is more than the 5-minute timeout old is removed from the
registry, has its persisted status set to "offline", gets an "offline"
device-log entry, and yields exactly one `DEVICE_OFFLINE` broadcast —
namely the one for this device, scoped to its device's tenant; an entry
within the threshold survives the tick unchanged. -/
theorem cleanup_evicts_exactly_stale (now : Nat)
    (deviceConnections : JsMap DeviceConnection)
    (hnd : NodupKeys deviceConnections) (deviceId : String)
    (c : DeviceConnection) (hmem : (deviceId, c) ∈ deviceConnections) :
    (now - c.lastSeen > timeoutMs →
      mapGet (cleanupTick now deviceConnections).deviceConnections deviceId
        = none ∧
      DbEffect.updateDeviceStatusOffline deviceId
        ∈ (cleanupTick now deviceConnections).effects ∧
      DbEffect.insertDeviceLog deviceId "offline"
          "Device disconnected (timeout)"
        ∈ (cleanupTick now deviceConnections).effects ∧
      (cleanupTick now deviceConnections).broadcasts.filter
          (isOfflineFor deviceId)
        = [(AdminMsg.DEVICE_OFFLINE deviceId c.device.name,
            c.device.tenant_id)]) ∧
    (¬(now - c.lastSeen > timeoutMs) →
      mapGet (cleanupTick now deviceConnections).deviceConnections deviceId
        = some c) := by
  constructor
  · intro hstale
    exact ⟨cleanupTick_removes_stale now deviceId c deviceConnections hnd
        hmem hstale,
      (cleanupTick_effects_mem now deviceId c deviceConnections hmem
        hstale).1,
      (cleanupTick_effects_mem now deviceId c deviceConnections hmem
        hstale).2,
      cleanupTick_broadcast_singleton now deviceId c deviceConnections hnd
        hmem hstale⟩
  · intro hfresh
    exact cleanupTick_keeps_fresh now deviceId c deviceConnections hnd hmem
      hfresh

/-- C3 witness: at time 400000 ms, the device last seen at 0 is evicted with
its single tenant-scoped offline broadcast. -/
theorem cleanup_evicts_exactly_stale_witness :
    mapGet (cleanupTick 400000 [("d1", connOld)]).deviceConnections "d1"
      = none ∧
    (cleanupTick 400000 [("d1", connOld)]).broadcasts.filter
        (isOfflineFor "d1")
      = [(AdminMsg.DEVICE_OFFLINE "d1" "Lobby TV", "tenantA")] :=
  ⟨((cleanup_evicts_exactly_stale 400000 [("d1", connOld)]
      (by unfold NodupKeys; decide) "d1" connOld (by decide)).1
      (by decide)).1,
   ((cleanup_evicts_exactly_stale 400000 [("d1", connOld)]
      (by unfold NodupKeys; decide) "d1" connOld (by decide)).1
      (by decide)).2.2.2⟩

/-- C1 (code bug): the Event Broadcaster performs no tenant scoping.  An
observer that the spec's data model regards as registered under tenant
"tenantB" receives an event broadcast for tenant "tenantA" (first
conjunct), although the spec-side `publish` delivers it to nobody (third
conjunct); moreover the registration path cannot even record a tenant
(fourth conjunct), and the broadcast result is independent of the tenant
argument altogether (fifth conjunct). -/
theorem broadcast_ignores_tenant_scoping :
    ("uB", SendOutcome.delivered) ∈
      broadcastToAdmins (AdminMsg.DEVICE_ONLINE "d1" "Lobby TV") "tenantA"
        [("uB", observerB)] ∧
    observerB.tenantId = some "tenantB" ∧
    publishSpecDelivered "tenantA" [("uB", observerB)] = [] ∧
    (handleAdminRegister [] ⟨7, WsState.OPEN, false⟩ "uB" 3).1
      = [("uB", ⟨⟨7, WsState.OPEN, false⟩, "uB", 3, none⟩)] ∧
    broadcastToAdmins (AdminMsg.DEVICE_ONLINE "d1" "Lobby TV") "tenantB"
        [("uB", observerB)]
      = broadcastToAdmins (AdminMsg.DEVICE_ONLINE "d1" "Lobby TV") "tenantA"
        [("uB", observerB)] := by
  exact ⟨by decide, rfl, by decide, by decide, rfl⟩

/-- C8: outcomes in the broadcast loop are per-recipient — an observer on an
open, healthy socket is delivered the event even when another observer's
socket fails on write (first conjunct); the failing observer is attempted
and fails without affecting the loop (second conjunct); and the close event
its transport error triggers removes exactly its entry from the registry
(third conjunct). -/
theorem broadcast_isolates_write_failures
    (message : AdminMsg) (tenantId : String)
    (adminConnections : JsMap AdminConnection)
    (hndw : NodupWs adminConnections)
    (u : String) (c : AdminConnection) (hmem : (u, c) ∈ adminConnections)
    (hopen : c.ws.readyState = WsState.OPEN)
    (hok : c.ws.failsOnWrite = false)
    (uf : String) (cf : AdminConnection)
    (hfmem : (uf, cf) ∈ adminConnections)
    (hfopen : cf.ws.readyState = WsState.OPEN)
    (hfail : cf.ws.failsOnWrite = true) :
    (u, SendOutcome.delivered)
      ∈ broadcastToAdmins message tenantId adminConnections ∧
    (uf, SendOutcome.writeFailed)
      ∈ broadcastToAdmins message tenantId adminConnections ∧
    mapGet (closeHandlerAdmins cf.ws adminConnections) uf = none := by
  refine ⟨?_, ?_, ?_⟩
  · have hsend : sendAttempt c = SendOutcome.delivered := by
      unfold sendAttempt
      rw [if_pos hopen, if_neg (by simp [hok])]
    exact List.mem_map.mpr ⟨(u, c), hmem, by rw [hsend]⟩
  · have hsend : sendAttempt cf = SendOutcome.writeFailed := by
      unfold sendAttempt
      rw [if_pos hfopen, if_pos hfail]
    exact List.mem_map.mpr ⟨(uf, cf), hfmem, by rw [hsend]⟩
  · unfold closeHandlerAdmins
    rcases hf : adminConnections.find? (fun p => p.2.ws.id == cf.ws.id)
      with _ | q
    · exfalso
      have := List.find?_eq_none.mp hf (uf, cf) hfmem
      simp at this
    · rw [hf]
      have hqmem := List.mem_of_find?_eq_some hf
      have hqws := List.find?_some hf
      have hq : q = (uf, cf) :=
        List.inj_on_of_nodup_map hndw hqmem hfmem (by simpa using hqws)
      rw [hq]
      exact mapGet_mapDelete_same _ _

/-- C8 witness: two observers, the second failing on write; the first is
delivered to and the second's close removes its entry. -/
theorem broadcast_isolates_write_failures_witness :
    ("u1", SendOutcome.delivered) ∈
      broadcastToAdmins (AdminMsg.SCREENSHOT_READY "d1") "tenantA"
        [("u1", observerOk), ("u2", observerBad)] ∧
    mapGet (closeHandlerAdmins observerBad.ws
        [("u1", observerOk), ("u2", observerBad)]) "u2" = none := by
  have h := broadcast_isolates_write_failures
    (AdminMsg.SCREENSHOT_READY "d1") "tenantA"
    [("u1", observerOk), ("u2", observerBad)] (by unfold NodupWs; decide)
    "u1" observerOk (by decide) rfl rfl
    "u2" observerBad (by decide) rfl rfl
  exact ⟨h.1, h.2.2⟩

/-- C9, counterexample: the message handlers are not serialized — the
emitter does not await the asynchronous listener — so there is an
admissible schedule of the registration handler and a later PLAYBACK_LOG
handler of the same connection in which the `PLAYBACK_UPDATE` telemetry
broadcast is issued strictly before the `DEVICE_ONLINE` broadcast. -/
theorem telemetry_broadcast_can_precede_online :
    ∃ tr, ConnTrace (registerSegments "d1" "Lobby TV")
        (playbackSegments "d1" "c1" "k1" 30) tr ∧
      tr.indexOf (EventAction.adminBroadcast
          (AdminMsg.PLAYBACK_UPDATE "d1" "c1" "k1" 30)) <
      tr.indexOf (EventAction.adminBroadcast
          (AdminMsg.DEVICE_ONLINE "d1" "Lobby TV")) := by
  refine ⟨badSchedule.flatten, ⟨badSchedule, ?_, rfl⟩, by decide⟩
  exact Interleaves.left (Interleaves.right (Interleaves.right
    (Interleaves.right (interleaves_left_all _))))

/-- C9 (amended): the `DEVICE_ONLINE` broadcast precedes the telemetry
broadcast of a later message when the registration handler runs to
completion before the later handler starts (the serialized schedule); but
the code does not enforce that order, and a concurrent schedule in which
the telemetry broadcast comes first is also admissible. -/
theorem online_precedes_telemetry_only_if_serialized :
    (ConnTrace (registerSegments "d1" "Lobby TV")
        (playbackSegments "d1" "c1" "k1" 30)
        ((registerSegments "d1" "Lobby TV" ++
          playbackSegments "d1" "c1" "k1" 30).flatten) ∧
      ((registerSegments "d1" "Lobby TV" ++
          playbackSegments "d1" "c1" "k1" 30).flatten).indexOf
          (EventAction.adminBroadcast
            (AdminMsg.DEVICE_ONLINE "d1" "Lobby TV")) <
      ((registerSegments "d1" "Lobby TV" ++
          playbackSegments "d1" "c1" "k1" 30).flatten).indexOf
          (EventAction.adminBroadcast
            (AdminMsg.PLAYBACK_UPDATE "d1" "c1" "k1" 30))) ∧
    ∃ tr, ConnTrace (registerSegments "d1" "Lobby TV")
        (playbackSegments "d1" "c1" "k1" 30) tr ∧
      tr.indexOf (EventAction.adminBroadcast
          (AdminMsg.PLAYBACK_UPDATE "d1" "c1" "k1" 30)) <
      tr.indexOf (EventAction.adminBroadcast
          (AdminMsg.DEVICE_ONLINE "d1" "Lobby TV")) := by
  refine ⟨⟨⟨_, interleaves_append _ _, rfl⟩, by decide⟩,
    badSchedule.flatten, ⟨badSchedule, ?_, rfl⟩, by decide⟩
  exact Interleaves.left (Interleaves.right (Interleaves.right
    (Interleaves.right (interleaves_left_all _))))

end TvboxStack
